import Mathlib

/-!
Shallow embedding of the workout-tracker core: the workout composer
(CreateWorkoutScreen.createWorkout), the previous-performance matcher and the
detail-screen aggregation (WorkoutDetailScreen), and the history filtering and
statistics (WorkoutHistoryScreen), together with theorems settling the frozen
claims about them.

Timestamps are modelled as naturals, numeric weights as rationals (an absent or
unparsable JS value is `none`), reps as integers, and generated row ids as
naturals handed out by a counter in the store state.
-/

namespace WorkoutTracker

/-- A row of the `workouts` table (supabase-schema.sql): owner, name, optional
description, creation timestamp and optional completion timestamp. -/
structure WorkoutRow where
  id : Nat
  user_id : Nat
  name : String
  description : Option String
  created_at : Nat
  completed_at : Option Nat
deriving DecidableEq

/-- A row of the `workout_exercises` junction table: links one workout to one
exercise and carries the 0-based `order` assigned at creation time. -/
structure WorkoutExerciseRow where
  id : Nat
  workout_id : Nat
  exercise_id : Nat
  order : Nat
  created_at : Nat
deriving DecidableEq

/-- A row of the `sets` table: optional weight, integer reps, completion flag,
and the creation timestamp used as ordering key within an exercise. -/
structure SetRow where
  id : Nat
  workout_exercise_id : Nat
  weight : Option ℚ
  reps : ℤ
  completed : Bool
  created_at : Nat
deriving DecidableEq

/-- The relational store reached through the Supabase client, with the id
counter used to model store-generated ids. -/
structure Store where
  nextId : Nat
  workouts : List WorkoutRow
  workoutExercises : List WorkoutExerciseRow
  sets : List SetRow
deriving DecidableEq

/-! View model of WorkoutDetailScreen: a workout with its exercises, each
carrying its sorted list of sets, as assembled by fetchWorkoutDetails. -/

/-- One set as held in the WorkoutDetailScreen state. -/
structure SetView where
  id : Nat
  weight : Option ℚ
  reps : ℤ
  completed : Bool
  created_at : Nat
deriving DecidableEq

/-- One exercise of the detail view, with its sets. -/
structure ExerciseView where
  workout_exercise_id : Nat
  id : Nat
  name : String
  description : Option String
  sets : List SetView
deriving DecidableEq

/-- The workout held in WorkoutDetailScreen state (WorkoutWithExercises). -/
structure WorkoutView where
  id : Nat
  user_id : Nat
  name : String
  description : Option String
  created_at : Nat
  completed_at : Option Nat
  exercises : List ExerciseView
deriving DecidableEq

/-- getTotalSets of WorkoutDetailScreen: reduce over exercises adding the
length of each exercise's set list, starting from 0. -/
def getTotalSets (w : WorkoutView) : Nat :=
  w.exercises.foldl (fun total exercise => total + exercise.sets.length) 0

/-- getCompletedSets of WorkoutDetailScreen: reduce over exercises adding the
number of completed sets of each exercise, starting from 0. -/
def getCompletedSets (w : WorkoutView) : Nat :=
  w.exercises.foldl
    (fun total exercise => total + (exercise.sets.filter (fun s => s.completed)).length) 0

/-- JavaScript Math.round on an exact rational: floor of x + 1/2 (round half
up, which is Math.round's behaviour on all inputs). -/
def jsRound (q : ℚ) : ℤ := ⌊q + 1 / 2⌋

/-- progressPercentage of WorkoutDetailScreen:
totalSets > 0 ? (completedSets / totalSets) * 100 : 0, as an exact rational. -/
def progressPercentage (w : WorkoutView) : ℚ :=
  if getTotalSets w > 0 then ((getCompletedSets w : ℚ) / (getTotalSets w : ℚ)) * 100 else 0

/-- The integer percentage the detail screen displays:
Math.round(progressPercentage). -/
def progressPercentDisplayed (w : WorkoutView) : ℤ := jsRound (progressPercentage w)

/-- The Complete Workout footer is rendered only while completed_at is null
(the !workout.completed_at guard around the footer). -/
def completeButtonShown (w : WorkoutView) : Bool := w.completed_at.isNone

/-- The Complete Workout button's enabled state: the button carries
disabled = (completedSets !== totalSets), so it is enabled exactly when the two
counts agree.  No positivity check on totalSets is performed. -/
def completeButtonEnabled (w : WorkoutView) : Bool :=
  getCompletedSets w == getTotalSets w

/-- The completion action is reachable exactly when the footer is rendered and
the button is enabled. -/
def canComplete (w : WorkoutView) : Bool :=
  completeButtonShown w && completeButtonEnabled w

/-- completeWorkout's store update: set completed_at to the current time. -/
def completeWorkoutUpdate (w : WorkoutView) (now : Nat) : WorkoutView :=
  { w with completed_at := some now }

/-! Previous-performance display (WorkoutDetailScreen render). -/

/-- One element of the previous-performance sequence kept per exercise
(weight and reps both nullable, as in the PreviousSet type of the screen). -/
structure PreviousSet where
  weight : Option ℚ
  reps : Option ℤ
deriving DecidableEq

/-- The Previous-column text for the set at index setIndex: prevSets[setIndex]
when it exists and has non-null weight and reps is rendered weight x reps,
every other case renders the placeholder. -/
def prevText (prevSets : List PreviousSet) (setIndex : Nat) : String :=
  match prevSets[setIndex]? with
  | some prev =>
    match prev.weight, prev.reps with
    | some w, some r => toString w ++ "x" ++ toString r
    | some _, none => "-"
    | none, _ => "-"
  | none => "-"

/-! History screen (WorkoutHistoryScreen). -/

/-- The three history filters offered by WorkoutHistoryScreen. -/
inductive HistoryFilter where
  | all
  | completed
  | incomplete
deriving DecidableEq

/-- fetchWorkoutHistory's filter application on the workout rows the base query
returns: completed keeps rows with non-null completed_at, incomplete keeps rows
with null completed_at, all keeps everything. -/
def filterHistory (filter : HistoryFilter) (ws : List WorkoutRow) : List WorkoutRow :=
  match filter with
  | .all => ws
  | .completed => ws.filter (fun w => !w.completed_at.isNone)
  | .incomplete => ws.filter (fun w => w.completed_at.isNone)

/-- A workout as transformed by fetchWorkoutHistory: the row plus the
aggregated totalSets / completedSets counts. -/
structure WorkoutAgg where
  completed_at : Option Nat
  totalSets : Nat
  completedSets : Nat
deriving DecidableEq

/-- The record produced by getWorkoutStats. -/
structure HistoryStats where
  totalWorkouts : Nat
  completedWorkouts : Nat
  totalSets : Nat
  completedSets : Nat
  completionRate : ℤ
deriving DecidableEq

/-- getWorkoutStats of WorkoutHistoryScreen: counts, summed set totals and the
rounded completion rate (0 when there are no sets). -/
def getWorkoutStats (workouts : List WorkoutAgg) : HistoryStats :=
  let totalWorkouts := workouts.length
  let completedWorkouts := (workouts.filter (fun w => !w.completed_at.isNone)).length
  let totalSets := workouts.foldl (fun sum w => sum + w.totalSets) 0
  let completedSets := workouts.foldl (fun sum w => sum + w.completedSets) 0
  { totalWorkouts := totalWorkouts
    completedWorkouts := completedWorkouts
    totalSets := totalSets
    completedSets := completedSets
    completionRate :=
      if totalSets > 0 then jsRound ((completedSets : ℚ) / (totalSets : ℚ) * 100) else 0 }

/-- The specification's percentage formula, written from the spec's words
(section 4.3): percent = round(100 * completedSets / totalSets) when
totalSets > 0, else 0, rounding half up on the real-valued percentage.  Kept
separate from the code-derived definitions so the two can be compared. -/
def specPercent (completedSets totalSets : Nat) : ℤ :=
  if totalSets > 0 then ⌊100 * (completedSets : ℚ) / (totalSets : ℚ) + 1 / 2⌋ else 0

/-! Workout composer (CreateWorkoutScreen.createWorkout). -/

/-- One set of the draft being composed (CreateSetForm): optional weight and
the entered reps. -/
structure DraftSet where
  weight : Option ℚ
  reps : ℤ
deriving DecidableEq

/-- One exercise selection of the draft (CreateExerciseForm). -/
structure DraftSelection where
  exercise_id : Nat
  sets : List DraftSet
deriving DecidableEq

/-- Errors surfaced by createWorkout: the two precondition alerts, or a store
error carrying the index of the store operation that failed. -/
inductive CwError where
  | validation : String → CwError
  | storeFailure : Nat → CwError
deriving DecidableEq

/-- Outcome of a createWorkout run: the store as left behind, the indices of
the store operations that completed (in execution order), and either the new
workout id or the first error. -/
structure CwResult where
  store : Store
  trace : List Nat
  outcome : Except CwError Nat

/-- Failure schedule for the store: the operation with the given index fails
(none = every operation succeeds).  Operation 0 is the workout insert,
operations 1 + 2i and 2 + 2i are the i-th selection's junction insert and its
set batch insert. -/
def opFails (failAt : Option Nat) (opIdx : Nat) : Bool :=
  match failAt with
  | some k => opIdx == k
  | none => false

/-- JavaScript String.prototype.trim: drop leading and trailing whitespace
(written over the character list so it computes by kernel reduction). -/
def jsTrim (s : String) : String :=
  ⟨((s.data.dropWhile Char.isWhitespace).reverse.dropWhile Char.isWhitespace).reverse⟩

/-- JavaScript's (s || null) on a string: empty becomes null. -/
def jsStringOrNull (s : String) : Option String :=
  if s = "" then none else some s

/-- Store insert of the workout header row; returns the generated id. -/
def insertWorkoutRow (st : Store) (userId : Nat) (name : String)
    (description : Option String) (now : Nat) : Store × Nat :=
  ({ st with
      nextId := st.nextId + 1
      workouts := st.workouts ++
        [{ id := st.nextId, user_id := userId, name := name,
           description := description, created_at := now, completed_at := none }] },
   st.nextId)

/-- Store insert of one workout_exercises junction row; returns the generated
id. -/
def insertWERow (st : Store) (workoutId exerciseId ord now : Nat) : Store × Nat :=
  ({ st with
      nextId := st.nextId + 1
      workoutExercises := st.workoutExercises ++
        [{ id := st.nextId, workout_id := workoutId, exercise_id := exerciseId,
           order := ord, created_at := now }] },
   st.nextId)

/-- The set rows a batch insert appends for one selection: the draft sets in
order, each referencing the junction row and created with completed = false. -/
def setRowsFor (startId weId : Nat) (sets : List DraftSet) (now : Nat) : List SetRow :=
  sets.enum.map (fun p =>
    { id := startId + p.1, workout_exercise_id := weId, weight := p.2.weight,
      reps := p.2.reps, completed := false, created_at := now })

/-- Store batch insert of all set rows of one selection. -/
def insertSetRows (st : Store) (weId : Nat) (sets : List DraftSet) (now : Nat) : Store :=
  { st with
      nextId := st.nextId + sets.length
      sets := st.sets ++ setRowsFor st.nextId weId sets now }

/-- The per-selection loop of createWorkout: for each selection insert the
junction row (order = current draft index) and then its set batch, aborting at
the first failing operation. -/
def createWorkoutLoop (failAt : Option Nat) (now workoutId : Nat)
    (sels : List DraftSelection) (st : Store) (opIdx ord : Nat)
    (trace : List Nat) : CwResult :=
  match sels with
  | [] => { store := st, trace := trace, outcome := .ok workoutId }
  | sel :: rest =>
    if opFails failAt opIdx then
      { store := st, trace := trace, outcome := .error (.storeFailure opIdx) }
    else
      let step := insertWERow st workoutId sel.exercise_id ord now
      if opFails failAt (opIdx + 1) then
        { store := step.1, trace := trace ++ [opIdx],
          outcome := .error (.storeFailure (opIdx + 1)) }
      else
        createWorkoutLoop failAt now workoutId rest
          (insertSetRows step.1 step.2 sel.sets now)
          (opIdx + 2) (ord + 1) (trace ++ [opIdx, opIdx + 1])

/-- createWorkout of CreateWorkoutScreen: the two validation alerts (blank
trimmed name, no selections) return before any store operation; then the
workout header insert followed by the per-selection loop, every later failure
leaving the rows already inserted in place. -/
def createWorkout (failAt : Option Nat) (now userId : Nat)
    (workoutName workoutDescription : String)
    (selectedExercises : List DraftSelection) (st : Store) : CwResult :=
  if jsTrim workoutName = "" then
    { store := st, trace := [],
      outcome := .error (.validation "Please enter a workout name") }
  else if selectedExercises = [] then
    { store := st, trace := [],
      outcome := .error (.validation "Please add at least one exercise") }
  else if opFails failAt 0 then
    { store := st, trace := [], outcome := .error (.storeFailure 0) }
  else
    let step := insertWorkoutRow st userId (jsTrim workoutName)
      (jsStringOrNull (jsTrim workoutDescription)) now
    createWorkoutLoop failAt now step.2 selectedExercises step.1 1 0 [0]

/-! Previous-performance matcher (fetchWorkoutDetails' per-exercise query). -/

/-- One row of the matcher's query result: the junction row, its inner-joined
parent workout, and the nested set rows. -/
structure PrevRow where
  we : WorkoutExerciseRow
  workout : WorkoutRow
  sets : List SetRow
deriving DecidableEq

/-- Lookup of a junction row's parent workout. -/
def parentWorkout (st : Store) (we : WorkoutExerciseRow) : Option WorkoutRow :=
  st.workouts.find? (fun w => w.id == we.workout_id)

/-- The nested set rows of a junction row. -/
def setsOfWE (st : Store) (we : WorkoutExerciseRow) : List SetRow :=
  st.sets.filter (fun s => s.workout_exercise_id == we.id)

/-- The rows matching the matcher's filters: junction rows of the given
exercise whose inner-joined parent workout belongs to the given user and was
created strictly before the reference timestamp. -/
def prevCandidates (st : Store) (userId exerciseId refTime : Nat) : List PrevRow :=
  st.workoutExercises.filterMap (fun we =>
    if we.exercise_id = exerciseId then
      match parentWorkout st we with
      | some w =>
        if w.user_id = userId ∧ w.created_at < refTime then
          some { we := we, workout := w, sets := setsOfWE st we }
        else none
      | none => none
    else none)

/-- The matcher's query: the matching rows ordered by parent workout
created_at descending, limited to one row. -/
def prevQuery (st : Store) (userId exerciseId refTime : Nat) : List PrevRow :=
  (List.insertionSort (fun a b => b.workout.created_at ≤ a.workout.created_at)
    (prevCandidates st userId exerciseId refTime)).take 1

/-- The ascending created_at sort applied to a row's sets before display. -/
def sortSetsAsc (l : List SetRow) : List SetRow :=
  List.insertionSort (fun a b => a.created_at ≤ b.created_at) l

/-- Projection of a fetched set row to the previous-performance pair
(s.weight ?? null, s.reps ?? null). -/
def projectSet (s : SetRow) : PreviousSet :=
  { weight := s.weight, reps := some s.reps }

/-- The screen's handling of the query response: an errored response or an
empty row list yields the empty sequence, otherwise the first row's sets are
sorted by created_at ascending and projected. -/
def previousFromResponse (resp : Except Unit (List PrevRow)) : List PreviousSet :=
  match resp with
  | .error _ => []
  | .ok [] => []
  | .ok (r :: _) => (sortSetsAsc r.sets).map projectSet

/-- The complete previous-performance lookup for one exercise, on a successful
query. -/
def previousSets (st : Store) (userId exerciseId refTime : Nat) : List PreviousSet :=
  previousFromResponse (Except.ok (prevQuery st userId exerciseId refTime))

/-! Set-level updates (WorkoutDetailScreen). -/

/-- updateSetWeight's stored value: an undefined (or NaN) input stores null,
any other number is stored as given.  The unparsable-number case of the JS
input is modelled as none. -/
def weightValueOf (newWeight : Option ℚ) : Option ℚ :=
  match newWeight with
  | none => none
  | some q => some q

/-- updateSetWeight of WorkoutDetailScreen: point update of one set row's
weight field. -/
def updateSetWeight (st : Store) (setId : Nat) (newWeight : Option ℚ) : Store :=
  { st with
      sets := st.sets.map (fun r =>
        if r.id = setId then { r with weight := weightValueOf newWeight } else r) }

/-- The weight onEndEditing conversion: a blank input becomes undefined,
anything else is handed to Number (numParse models Number, returning none for
NaN). -/
def weightInputToNumber (t : String) (numParse : String → Option ℚ) : Option ℚ :=
  if t = "" then none else numParse t

/-- JavaScript's (newReps || 0): a NaN (modelled none) becomes 0. -/
def jsOr0 (q : Option ℚ) : ℚ :=
  match q with
  | none => 0
  | some v => v

/-- updateSetReps' stored value: Math.max(0, Math.floor(newReps || 0)). -/
def safeReps (newReps : Option ℚ) : ℤ := max 0 ⌊jsOr0 newReps⌋

/-- updateSetReps of WorkoutDetailScreen: point update of one set row's reps
field with the clamped value. -/
def updateSetReps (st : Store) (setId : Nat) (newReps : Option ℚ) : Store :=
  { st with
      sets := st.sets.map (fun r =>
        if r.id = setId then { r with reps := safeReps newReps } else r) }

/-- The reps onEndEditing conversion: a blank input becomes 0, anything else is
handed to Number (numParse models Number, returning none for NaN). -/
def repsInputToNumber (t : String) (numParse : String → Option ℚ) : Option ℚ :=
  if t = "" then some 0 else numParse t

/-- Reading one set row back from the store, as fetchWorkoutDetails does. -/
def fetchSetRow (st : Store) (setId : Nat) : Option SetRow :=
  st.sets.find? (fun r => r.id == setId)

/-- The weight field of a re-fetched set row (none = row absent, some none =
row present with null weight). -/
def fetchSetWeight (st : Store) (setId : Nat) : Option (Option ℚ) :=
  (fetchSetRow st setId).map (fun r => r.weight)

/-- The reps field of a re-fetched set row. -/
def fetchSetReps (st : Store) (setId : Nat) : Option ℤ :=
  (fetchSetRow st setId).map (fun r => r.reps)

/-! Concrete instances used to instantiate the theorems below. -/

/-- A workout with no exercises (hence zero sets) and null completed_at. -/
def zeroSetWorkout : WorkoutView :=
  { id := 1, user_id := 1, name := "Empty", description := none,
    created_at := 0, completed_at := none, exercises := [] }

/-- A workout whose single set is not completed. -/
def oneIncompleteWorkout : WorkoutView :=
  { id := 1, user_id := 1, name := "W", description := none,
    created_at := 0, completed_at := none,
    exercises := [{ workout_exercise_id := 1, id := 1, name := "E",
                    description := none,
                    sets := [{ id := 1, weight := none, reps := 8,
                               completed := false, created_at := 0 }] }] }

/-- The spec's positional-matching example: previous sets 100 x 8 and 105 x 6. -/
def prevExample : List PreviousSet :=
  [{ weight := some 100, reps := some 8 }, { weight := some 105, reps := some 6 }]

/-- An empty store with the id counter at 100. -/
def emptyStore : Store :=
  { nextId := 100, workouts := [], workoutExercises := [], sets := [] }

/-- A one-selection draft: exercise 10 with a single 8-rep set. -/
def draftOne : List DraftSelection :=
  [{ exercise_id := 10, sets := [{ weight := none, reps := 8 }] }]

/-- A store holding two prior workouts of user 7 containing exercise 100
(created at 10 and 20) and one foreign workout, for the matcher theorems. -/
def matcherStore : Store :=
  { nextId := 50
    workouts := [{ id := 1, user_id := 7, name := "old", description := none,
                   created_at := 10, completed_at := none },
                 { id := 2, user_id := 7, name := "mid", description := none,
                   created_at := 20, completed_at := none },
                 { id := 4, user_id := 8, name := "other", description := none,
                   created_at := 25, completed_at := none }]
    workoutExercises := [{ id := 11, workout_id := 1, exercise_id := 100,
                           order := 0, created_at := 10 },
                         { id := 12, workout_id := 2, exercise_id := 100,
                           order := 0, created_at := 20 },
                         { id := 14, workout_id := 4, exercise_id := 100,
                           order := 0, created_at := 25 }]
    sets := [{ id := 21, workout_exercise_id := 12, weight := none, reps := 5,
               completed := true, created_at := 22 },
             { id := 22, workout_exercise_id := 12, weight := none, reps := 3,
               completed := true, created_at := 21 }] }

/-- The matcher row the theorems below exhibit: junction row 12 of workout 2
with its two set rows. -/
def matcherHit : PrevRow :=
  { we := { id := 12, workout_id := 2, exercise_id := 100, order := 0,
            created_at := 20 }
    workout := { id := 2, user_id := 7, name := "mid", description := none,
                 created_at := 20, completed_at := none }
    sets := [{ id := 21, workout_exercise_id := 12, weight := none, reps := 5,
               completed := true, created_at := 22 },
             { id := 22, workout_exercise_id := 12, weight := none, reps := 3,
               completed := true, created_at := 21 }] }

/-- A store with a single set row (id 1) carrying weight 100 and reps 8. -/
def oneSetStore : Store :=
  { nextId := 5, workouts := [], workoutExercises := []
    sets := [{ id := 1, workout_exercise_id := 1, weight := some 100, reps := 8,
               completed := false, created_at := 0 }] }

/-! Helper lemmas shared by the claim theorems. -/

theorem foldl_add_eq_sum {α : Type} (f : α → Nat) (l : List α) (n : Nat) :
    l.foldl (fun t x => t + f x) n = n + (l.map f).sum := by
  induction l generalizing n with
  | nil => simp
  | cons x xs ih => simp [ih, Nat.add_assoc]

theorem getTotalSets_eq_sum (w : WorkoutView) :
    getTotalSets w = (w.exercises.map (fun e => e.sets.length)).sum := by
  unfold getTotalSets
  rw [foldl_add_eq_sum]
  simp

theorem getCompletedSets_eq_sum (w : WorkoutView) :
    getCompletedSets w =
      (w.exercises.map (fun e => (e.sets.filter (fun s => s.completed)).length)).sum := by
  unfold getCompletedSets
  rw [foldl_add_eq_sum]
  simp

theorem getCompletedSets_le (w : WorkoutView) : getCompletedSets w ≤ getTotalSets w := by
  rw [getTotalSets_eq_sum, getCompletedSets_eq_sum]
  exact List.sum_le_sum (fun e _ => List.length_filter_le _ _)

theorem getCompletedSets_lt_of_incomplete (w : WorkoutView)
    (h : ∃ e ∈ w.exercises, ∃ s ∈ e.sets, s.completed = false) :
    getCompletedSets w < getTotalSets w := by
  rw [getTotalSets_eq_sum, getCompletedSets_eq_sum]
  obtain ⟨e, he, s, hs, hc⟩ := h
  refine List.sum_lt_sum _ _ (fun e _ => List.length_filter_le _ _) ⟨e, he, ?_⟩
  exact List.length_filter_lt_length_iff_exists.mpr ⟨s, hs, by simp [hc]⟩

theorem format_ne_placeholder (a b : String) : a ++ "x" ++ b ≠ "-" := by
  intro h
  have h2 : (a ++ "x" ++ b).data = ("-" : String).data := by rw [h]
  simp [String.data_append] at h2
  have hm : 'x' ∈ a.data ++ 'x' :: b.data := by simp
  rw [h2] at hm
  simp at hm

theorem jsRound_progress_eq_spec (c t : Nat) :
    jsRound (if t > 0 then (c : ℚ) / (t : ℚ) * 100 else 0) = specPercent c t := by
  unfold jsRound specPercent
  split
  · congr 1
    ring
  · norm_num

/-- C1 (counterexample): a workout with zero sets and null completed_at passes
the completion gate — the footer is rendered and the button is enabled, since
the gate checks only completedSets == totalSets and never totalSets > 0 — so
the claim that a workout with zero sets cannot be completed is false. -/
theorem completion_gate_zero_sets_counterexample :
    canComplete zeroSetWorkout = true ∧ getTotalSets zeroSetWorkout = 0 ∧
    zeroSetWorkout.completed_at = none ∧
    (completeWorkoutUpdate zeroSetWorkout 5).completed_at = some 5 := by
  refine ⟨by decide, by decide, rfl, rfl⟩

/-- C1 (amended): the completion action is reachable exactly when completed_at
is null and completedSets equals totalSets; in particular a workout with any
incomplete set cannot transition completed_at from null to non-null, but no
totalSets > 0 requirement is enforced.  The action itself stores the current
time into completed_at. -/
theorem completion_gate_amended (w : WorkoutView) :
    (canComplete w = true ↔
      w.completed_at = none ∧ getCompletedSets w = getTotalSets w) ∧
    ((∃ e ∈ w.exercises, ∃ s ∈ e.sets, s.completed = false) →
      canComplete w = false) ∧
    (∀ now, (completeWorkoutUpdate w now).completed_at = some now) := by
  refine ⟨?_, ?_, fun now => rfl⟩
  · simp [canComplete, completeButtonShown, completeButtonEnabled,
      Option.isNone_iff_eq_none]
  · intro h
    have hlt := getCompletedSets_lt_of_incomplete w h
    have hne : (getCompletedSets w == getTotalSets w) = false := by
      simp [Nat.ne_of_lt hlt]
    simp [canComplete, completeButtonEnabled, hne]

/-- C1 (witness): the amended gate applied to a workout whose single set is
incomplete: the completion action is not reachable. -/
theorem completion_gate_amended_witness :
    canComplete oneIncompleteWorkout = false :=
  (completion_gate_amended oneIncompleteWorkout).2.1
    ⟨{ workout_exercise_id := 1, id := 1, name := "E", description := none,
       sets := [{ id := 1, weight := none, reps := 8, completed := false,
                  created_at := 0 }] }, by decide,
     { id := 1, weight := none, reps := 8, completed := false, created_at := 0 },
     by decide, rfl⟩

/-- C4 (counterexample): with a previous sequence whose single element has a
null weight, index 0 is in range yet the placeholder is rendered, so the claim
that the placeholder appears only when the index is out of range is false. -/
theorem prev_alignment_counterexample :
    prevText [{ weight := none, reps := some 8 }] 0 = "-" ∧
    0 < (([{ weight := none, reps := some 8 }] : List PreviousSet)).length := by
  exact ⟨rfl, by decide⟩

/-- C4 (amended): the set at index k of the current workout is displayed next
to the element at index k of the returned sequence, rendered weight x reps when
that element exists and has non-null weight and reps; the placeholder is
rendered exactly when index k is out of range or the element at k has a null
weight or null reps. -/
theorem prev_alignment (prevSets : List PreviousSet) (k : Nat) :
    (∀ p w r, prevSets[k]? = some p → p.weight = some w → p.reps = some r →
      prevText prevSets k = toString w ++ "x" ++ toString r) ∧
    (prevText prevSets k = "-" ↔
      prevSets[k]? = none ∨
        ∃ p, prevSets[k]? = some p ∧ (p.weight = none ∨ p.reps = none)) ∧
    (prevSets.length ≤ k → prevText prevSets k = "-") := by
  refine ⟨?_, ?_, ?_⟩
  · intro p w r hp hw hr
    simp [prevText, hp, hw, hr]
  · cases hk : prevSets[k]? with
    | none => simp [prevText, hk]
    | some prev =>
      cases hw : prev.weight with
      | none => simp [prevText, hk, hw]
      | some w =>
        cases hr : prev.reps with
        | none => simp [prevText, hk, hw, hr]
        | some r => simp [prevText, hk, hw, hr, format_ne_placeholder]
  · intro h
    have hnone : prevSets[k]? = none := by
      rw [List.getElem?_eq_none_iff]
      exact h
    simp [prevText, hnone]

/-- C4 (witness): the spec's example — previous sets 100 x 8 and 105 x 6
against a 3-set current exercise display 100x8, 105x6 and the placeholder at
indices 0, 1 and 2. -/
theorem prev_alignment_witness :
    prevText prevExample 0 = "100x8" ∧ prevText prevExample 1 = "105x6" ∧
    prevText prevExample 2 = "-" := by
  refine ⟨?_, ?_, (prev_alignment prevExample 2).2.2 (by decide)⟩
  · have h := (prev_alignment prevExample 0).1
      { weight := some 100, reps := some 8 } 100 8 rfl rfl rfl
    simpa using h
  · have h := (prev_alignment prevExample 1).1
      { weight := some 105, reps := some 6 } 105 6 rfl rfl rfl
    simpa using h

/-- C5 (confirmed): both the detail screen's displayed percentage and the
history screen's completion rate equal the spec formula
round(100 * completedSets / totalSets) (round half up, 0 when totalSets = 0),
with the totals summed across all the workout's exercises' sets; in particular
2 of 3 sets gives 67 and an empty workout gives 0. -/
theorem progress_percent_matches_spec (w : WorkoutView) (aggs : List WorkoutAgg) :
    progressPercentDisplayed w = specPercent (getCompletedSets w) (getTotalSets w) ∧
    (getWorkoutStats aggs).completionRate =
      specPercent (getWorkoutStats aggs).completedSets (getWorkoutStats aggs).totalSets ∧
    getTotalSets w = (w.exercises.map (fun e => e.sets.length)).sum ∧
    getCompletedSets w =
      (w.exercises.map (fun e => (e.sets.filter (fun s => s.completed)).length)).sum ∧
    specPercent 2 3 = 67 ∧ specPercent 0 0 = 0 := by
  refine ⟨?_, ?_, getTotalSets_eq_sum w, getCompletedSets_eq_sum w,
    by norm_num [specPercent], by norm_num [specPercent]⟩
  · rw [progressPercentDisplayed, progressPercentage, jsRound_progress_eq_spec]
  · show (if _ > 0 then jsRound _ else 0) = _
    rw [getWorkoutStats]
    split
    · rw [specPercent]
      rw [if_pos (by assumption)]
      unfold jsRound
      congr 1
      ring
    · rw [specPercent, if_neg (by assumption)]

/-- C6 (confirmed): the completed filter returns exactly the workouts with
non-null completed_at, the incomplete filter exactly those with null
completed_at, the two are disjoint, and together they are a permutation of the
unfiltered result. -/
theorem history_filter_partition (ws : List WorkoutRow) :
    (∀ w, w ∈ filterHistory .completed ws ↔ w ∈ ws ∧ w.completed_at ≠ none) ∧
    (∀ w, w ∈ filterHistory .incomplete ws ↔ w ∈ ws ∧ w.completed_at = none) ∧
    (∀ w, ¬(w ∈ filterHistory .completed ws ∧ w ∈ filterHistory .incomplete ws)) ∧
    (filterHistory .completed ws ++ filterHistory .incomplete ws).Perm
      (filterHistory .all ws) := by
  refine ⟨?_, ?_, ?_, ?_⟩
  · intro w
    simp [filterHistory, List.mem_filter, Option.isNone_iff_eq_none,
      Option.isSome_iff_ne_none]
  · intro w
    simp [filterHistory, List.mem_filter, Option.isNone_iff_eq_none]
  · intro w
    simp [filterHistory, List.mem_filter, Option.isNone_iff_eq_none,
      Option.isSome_iff_ne_none]
    intro _ h
    simp [h]
  · have h := List.filter_append_perm (fun w : WorkoutRow => !w.completed_at.isNone) ws
    simpa [filterHistory] using h

theorem find_after_point_update (l : List SetRow) (setId : Nat) (f : SetRow → SetRow)
    (hf : ∀ r, (f r).id = r.id) :
    (l.map (fun r => if r.id = setId then f r else r)).find? (fun r => r.id == setId)
      = (l.find? (fun r => r.id == setId)).map f := by
  induction l with
  | nil => rfl
  | cons x xs ih =>
    by_cases hx : x.id = setId
    · simp [List.find?_cons, hx, hf]
    · simp [List.find?_cons, hx, ih]

/-- C9 (confirmed): updating a set's weight with an undefined (blank) value
stores null, and re-fetching the set returns a present weight field holding
null — not zero and not an absent row; a blank weight input is converted to the
undefined value regardless of how Number parses. -/
theorem weight_null_roundtrip (st : Store) (setId : Nat)
    (h : (fetchSetRow st setId).isSome = true) :
    fetchSetWeight (updateSetWeight st setId none) setId = some none ∧
    fetchSetWeight (updateSetWeight st setId none) setId ≠ none ∧
    fetchSetWeight (updateSetWeight st setId none) setId ≠ some (some 0) ∧
    (∀ numParse, weightInputToNumber "" numParse = none) := by
  have key : fetchSetWeight (updateSetWeight st setId none) setId = some none := by
    unfold fetchSetWeight fetchSetRow updateSetWeight
    dsimp only
    rw [find_after_point_update st.sets setId
      (fun r => { r with weight := weightValueOf none }) (fun r => rfl)]
    obtain ⟨r, hr⟩ := Option.isSome_iff_exists.mp h
    unfold fetchSetRow at hr
    simp [hr, weightValueOf]
  exact ⟨key, by simp [key], by simp [key], fun numParse => rfl⟩

/-- C9 (witness): the round-trip on a store whose set 1 carries weight 100:
after a blank update the weight reads back null. -/
theorem weight_null_roundtrip_witness :
    fetchSetWeight (updateSetWeight oneSetStore 1 none) 1 = some none :=
  (weight_null_roundtrip oneSetStore 1 (by decide)).1

/-- C10 (confirmed): a reps update stores max(0, floor(input or 0)) — for any
numeric input including negative, fractional or NaN (modelled none) — so the
stored value is a non-negative integer; a blank input is converted to 0 and
stores 0. -/
theorem reps_update_invariant (st : Store) (setId : Nat) (newReps : Option ℚ)
    (h : (fetchSetRow st setId).isSome = true) :
    fetchSetReps (updateSetReps st setId newReps) setId = some (max 0 ⌊jsOr0 newReps⌋) ∧
    (0 : ℤ) ≤ max 0 ⌊jsOr0 newReps⌋ ∧
    (∀ numParse, repsInputToNumber "" numParse = some 0) ∧
    (∀ numParse,
      fetchSetReps (updateSetReps st setId (repsInputToNumber "" numParse)) setId
        = some 0) := by
  have key : ∀ v, fetchSetReps (updateSetReps st setId v) setId = some (safeReps v) := by
    intro v
    unfold fetchSetReps fetchSetRow updateSetReps
    dsimp only
    rw [find_after_point_update st.sets setId
      (fun r => { r with reps := safeReps v }) (fun r => rfl)]
    obtain ⟨r, hr⟩ := Option.isSome_iff_exists.mp h
    unfold fetchSetRow at hr
    simp [hr]
  refine ⟨key newReps, le_max_left _ _, fun numParse => rfl, fun numParse => ?_⟩
  rw [show repsInputToNumber "" numParse = some 0 from rfl, key]
  norm_num [safeReps, jsOr0]

/-- C10 (witness): a negative input on the one-set store stores 0. -/
theorem reps_update_invariant_witness :
    fetchSetReps (updateSetReps oneSetStore 1 (some (-4))) 1 = some 0 := by
  have h := (reps_update_invariant oneSetStore 1 (some (-4)) (by decide)).1
  rw [h]
  norm_num [jsOr0]

/-- C6 (witness): the partition applied to a two-row history, one row
completed and one not: the completed row is in the completed filter's
result. -/
theorem history_filter_partition_witness :
    { id := 1, user_id := 1, name := "a", description := none, created_at := 0,
      completed_at := some 9 : WorkoutRow } ∈
      filterHistory .completed
        [{ id := 1, user_id := 1, name := "a", description := none,
           created_at := 0, completed_at := some 9 },
         { id := 2, user_id := 1, name := "b", description := none,
           created_at := 1, completed_at := none }] :=
  ((history_filter_partition _).1 _).mpr ⟨by decide, by decide⟩

theorem map_enum_snd {α β : Type} (f : α → β) (l : List α) :
    l.enum.map (fun p => f p.2) = l.map f := by
  have h : l.enum.map (fun p => f p.2) = (l.enum.map Prod.snd).map f := by
    rw [List.map_map]
    rfl
  rw [h, List.enum_map_snd]

theorem createWorkoutLoop_success (now workoutId : Nat) (sels : List DraftSelection) :
    ∀ (st : Store) (opIdx ord : Nat) (trace : List Nat),
    ∃ wes newSets n2 tr2,
      createWorkoutLoop none now workoutId sels st opIdx ord trace =
        { store := { nextId := n2, workouts := st.workouts,
                     workoutExercises := st.workoutExercises ++ wes,
                     sets := st.sets ++ newSets },
          trace := trace ++ tr2, outcome := .ok workoutId } ∧
      wes.map (fun we => we.order) = List.range' ord sels.length ∧
      wes.map (fun we => we.exercise_id) = sels.map (fun sel => sel.exercise_id) ∧
      wes.map (fun we => we.workout_id) = List.replicate sels.length workoutId ∧
      newSets.map (fun s => (s.workout_exercise_id, s.weight, s.reps, s.completed)) =
        (wes.zip sels).flatMap (fun p =>
          p.2.sets.map (fun d => (p.1.id, d.weight, d.reps, false))) := by
  induction sels with
  | nil =>
    intro st opIdx ord trace
    exact ⟨[], [], st.nextId, [], by simp [createWorkoutLoop], rfl, rfl, rfl, rfl⟩
  | cons sel rest ih =>
    intro st opIdx ord trace
    obtain ⟨wes, newSets, n2, tr2, heq, hord, hex, hwid, hsets⟩ :=
      ih (insertSetRows (insertWERow st workoutId sel.exercise_id ord now).1
            (insertWERow st workoutId sel.exercise_id ord now).2 sel.sets now)
         (opIdx + 2) (ord + 1) (trace ++ [opIdx, opIdx + 1])
    refine ⟨{ id := st.nextId, workout_id := workoutId, exercise_id := sel.exercise_id,
              order := ord, created_at := now } :: wes,
            setRowsFor (st.nextId + 1) st.nextId sel.sets now ++ newSets,
            n2, [opIdx, opIdx + 1] ++ tr2, ?_, ?_, ?_, ?_, ?_⟩
    · show createWorkoutLoop none now workoutId (sel :: rest) st opIdx ord trace = _
      rw [createWorkoutLoop]
      rw [if_neg (by simp [opFails]), if_neg (by simp [opFails])]
      rw [heq]
      simp [insertWERow, insertSetRows]
    · simp only [List.map_cons, hord, List.length_cons]
      rw [List.range'_succ]
    · simp [hex]
    · simp [hwid, List.replicate_succ]
    · simp only [List.map_append, hsets, List.zip_cons_cons, List.flatMap_cons]
      congr 1
      unfold setRowsFor
      rw [List.map_map]
      exact map_enum_snd (fun d : DraftSet => (st.nextId, d.weight, d.reps, false)) sel.sets

theorem createWorkoutLoop_failure (now workoutId k : Nat) (sels : List DraftSelection) :
    ∀ (st : Store) (opIdx ord : Nat) (trace : List Nat),
    opIdx ≤ k → k < opIdx + 2 * sels.length →
    ∃ wes newSets n2,
      createWorkoutLoop (some k) now workoutId sels st opIdx ord trace =
        { store := { nextId := n2, workouts := st.workouts,
                     workoutExercises := st.workoutExercises ++ wes,
                     sets := st.sets ++ newSets },
          trace := trace ++ List.range' opIdx (k - opIdx),
          outcome := .error (.storeFailure k) } := by
  induction sels with
  | nil =>
    intro st opIdx ord trace h1 h2
    simp at h2
    omega
  | cons sel rest ih =>
    intro st opIdx ord trace h1 h2
    by_cases hk0 : k = opIdx
    · refine ⟨[], [], st.nextId, ?_⟩
      rw [createWorkoutLoop, if_pos (by simp [opFails, hk0])]
      simp [hk0]
    · by_cases hk1 : k = opIdx + 1
      · refine ⟨[{ id := st.nextId, workout_id := workoutId,
                   exercise_id := sel.exercise_id, order := ord,
                   created_at := now }], [], st.nextId + 1, ?_⟩
        rw [createWorkoutLoop, if_neg (by simp [opFails]; omega),
          if_pos (by simp [opFails, hk1])]
        have hr : k - opIdx = 1 := by omega
        simp [insertWERow, hk1, hr, List.range'_succ]
      · have hge : opIdx + 2 ≤ k := by omega
        obtain ⟨wes, newSets, n2, heq⟩ :=
          ih (insertSetRows (insertWERow st workoutId sel.exercise_id ord now).1
                (insertWERow st workoutId sel.exercise_id ord now).2 sel.sets now)
             (opIdx + 2) (ord + 1) (trace ++ [opIdx, opIdx + 1]) hge
             (by simp at h2 ⊢; omega)
        refine ⟨{ id := st.nextId, workout_id := workoutId,
                  exercise_id := sel.exercise_id, order := ord,
                  created_at := now } :: wes,
                setRowsFor (st.nextId + 1) st.nextId sel.sets now ++ newSets, n2, ?_⟩
        rw [createWorkoutLoop, if_neg (by simp [opFails]; omega),
          if_neg (by simp [opFails]; omega)]
        rw [heq]
        have hsplit : k - opIdx = ((k - (opIdx + 2)) + 1) + 1 := by omega
        simp only [insertWERow, insertSetRows]
        rw [hsplit, List.range'_succ, List.range'_succ]
        simp [List.append_assoc]

/-- C2 (confirmed): a successful createWorkout run on a valid draft inserts
exactly one workout row (name trimmed, description trimmed-or-null, owner id,
no completion timestamp), exactly N junction rows whose order fields are
0..N-1 following draft position and which all reference the new workout, and
for the i-th junction row exactly the i-th selection's set rows, each carrying
the given weight (or null) and reps with completed = false. -/
theorem createWorkout_success (now userId : Nat)
    (workoutName workoutDescription : String)
    (sels : List DraftSelection) (st : Store)
    (hname : jsTrim workoutName ≠ "") (hsel : sels ≠ []) :
    ∃ wes newSets n2,
      (createWorkout none now userId workoutName workoutDescription sels st).outcome
        = .ok st.nextId ∧
      (createWorkout none now userId workoutName workoutDescription sels st).store =
        { nextId := n2,
          workouts := st.workouts ++
            [{ id := st.nextId, user_id := userId, name := jsTrim workoutName,
               description := jsStringOrNull (jsTrim workoutDescription),
               created_at := now, completed_at := none }],
          workoutExercises := st.workoutExercises ++ wes,
          sets := st.sets ++ newSets } ∧
      wes.length = sels.length ∧
      wes.map (fun we => we.order) = List.range sels.length ∧
      wes.map (fun we => we.exercise_id) = sels.map (fun sel => sel.exercise_id) ∧
      wes.map (fun we => we.workout_id) = List.replicate sels.length st.nextId ∧
      newSets.map (fun s => (s.workout_exercise_id, s.weight, s.reps, s.completed)) =
        (wes.zip sels).flatMap (fun p =>
          p.2.sets.map (fun d => (p.1.id, d.weight, d.reps, false))) := by
  obtain ⟨wes, newSets, n2, tr2, heq, hord, hex, hwid, hsets⟩ :=
    createWorkoutLoop_success now st.nextId sels
      (insertWorkoutRow st userId (jsTrim workoutName)
        (jsStringOrNull (jsTrim workoutDescription)) now).1 1 0 [0]
  have hrun : createWorkout none now userId workoutName workoutDescription sels st =
      createWorkoutLoop none now st.nextId sels
        (insertWorkoutRow st userId (jsTrim workoutName)
          (jsStringOrNull (jsTrim workoutDescription)) now).1 1 0 [0] := by
    rw [createWorkout, if_neg hname, if_neg hsel, if_neg (by simp [opFails])]
    rfl
  have hlen : wes.length = sels.length := by
    have h := congrArg List.length hord
    simpa using h
  refine ⟨wes, newSets, n2, ?_, ?_, hlen, ?_, hex, hwid, hsets⟩
  · rw [hrun, heq]
  · rw [hrun, heq]
    simp [insertWorkoutRow]
  · rw [List.range_eq_range']
    exact hord

/-- C2 (witness): composing a one-exercise one-set draft on the empty store
returns the generated workout id 100. -/
theorem createWorkout_success_witness :
    (createWorkout none 0 7 "My Workout" "" draftOne emptyStore).outcome
      = .ok 100 := by
  obtain ⟨wes, newSets, n2, hout, hrest⟩ :=
    createWorkout_success 0 7 "My Workout" "" draftOne emptyStore
      (by decide) (by decide)
  rw [hout]
  rfl

/-- C7 (confirmed): when the store operation with index k fails (k = 0 is the
workout insert, the loop's operations follow), every operation before k has
executed, nothing after k executes, the first error is surfaced as the
outcome, and no compensation is performed: for k at least 1 the workout header
row remains in the store, together with every junction and set row inserted
before the failure. -/
theorem createWorkout_failure_keeps_rows (now userId k : Nat)
    (workoutName workoutDescription : String) (sels : List DraftSelection)
    (st : Store) (hname : jsTrim workoutName ≠ "") (hsel : sels ≠ [])
    (hk1 : 1 ≤ k) (hk2 : k < 1 + 2 * sels.length) :
    (createWorkout (some 0) now userId workoutName workoutDescription sels st =
      { store := st, trace := [], outcome := .error (.storeFailure 0) }) ∧
    ∃ wes newSets n2,
      createWorkout (some k) now userId workoutName workoutDescription sels st =
        { store := { nextId := n2,
                     workouts := st.workouts ++
                       [{ id := st.nextId, user_id := userId,
                          name := jsTrim workoutName,
                          description := jsStringOrNull (jsTrim workoutDescription),
                          created_at := now, completed_at := none }],
                     workoutExercises := st.workoutExercises ++ wes,
                     sets := st.sets ++ newSets },
          trace := List.range k,
          outcome := .error (.storeFailure k) } := by
  constructor
  · rw [createWorkout, if_neg hname, if_neg hsel, if_pos (by simp [opFails])]
  · obtain ⟨wes, newSets, n2, heq⟩ :=
      createWorkoutLoop_failure now st.nextId k sels
        (insertWorkoutRow st userId (jsTrim workoutName)
          (jsStringOrNull (jsTrim workoutDescription)) now).1 1 0 [0] hk1 (by omega)
    refine ⟨wes, newSets, n2, ?_⟩
    have hrun : createWorkout (some k) now userId workoutName workoutDescription sels st =
        createWorkoutLoop (some k) now st.nextId sels
          (insertWorkoutRow st userId (jsTrim workoutName)
            (jsStringOrNull (jsTrim workoutDescription)) now).1 1 0 [0] := by
      rw [createWorkout, if_neg hname, if_neg hsel,
        if_neg (by simp [opFails]; omega)]
      rfl
    have hr : List.range k = 0 :: List.range' 1 (k - 1) := by
      rw [List.range_eq_range', show k = (k - 1) + 1 from by omega, List.range'_succ]
      simp
    rw [hrun, heq]
    congr 1
    rw [hr]
    simp

/-- C7 (witness): with the set-batch insert (operation 2) failing on a
one-selection draft, operations 0 and 1 have executed, the outcome is the
store error of operation 2, and the workout header row persists. -/
theorem createWorkout_failure_witness :
    (createWorkout (some 2) 0 7 "My Workout" "" draftOne emptyStore).trace
      = [0, 1] ∧
    (createWorkout (some 2) 0 7 "My Workout" "" draftOne emptyStore).outcome
      = .error (.storeFailure 2) ∧
    (createWorkout (some 2) 0 7 "My Workout" "" draftOne emptyStore).store.workouts
      ≠ [] := by
  obtain ⟨h0, wes, newSets, n2, heq⟩ :=
    createWorkout_failure_keeps_rows 0 7 2 "My Workout" "" draftOne emptyStore
      (by decide) (by decide) (by decide) (by decide)
  refine ⟨?_, ?_, ?_⟩
  · rw [heq]
    show List.range 2 = [0, 1]
    decide
  · rw [heq]
  · rw [heq]
    simp

/-- C8 (confirmed): a blank trimmed name or an empty selection list makes
createWorkout return a validation error before any store operation: the store
is unchanged and the operation trace is empty, regardless of the failure
schedule. -/
theorem createWorkout_validation_guard (failAt : Option Nat) (now userId : Nat)
    (workoutName workoutDescription : String) (sels : List DraftSelection)
    (st : Store) (h : jsTrim workoutName = "" ∨ sels = []) :
    (createWorkout failAt now userId workoutName workoutDescription sels st).store
      = st ∧
    (createWorkout failAt now userId workoutName workoutDescription sels st).trace
      = [] ∧
    ∃ msg,
      (createWorkout failAt now userId workoutName workoutDescription sels st).outcome
        = .error (.validation msg) := by
  by_cases hname : jsTrim workoutName = ""
  · rw [createWorkout, if_pos hname]
    exact ⟨rfl, rfl, _, rfl⟩
  · rcases h with h | h
    · exact absurd h hname
    · rw [createWorkout, if_neg hname, if_pos h]
      exact ⟨rfl, rfl, _, rfl⟩

/-- C8 (witness): a whitespace-only name leaves the empty store untouched with
an empty operation trace. -/
theorem createWorkout_validation_witness :
    (createWorkout none 0 7 "   " "" draftOne emptyStore).store = emptyStore ∧
    (createWorkout none 0 7 "   " "" draftOne emptyStore).trace = [] := by
  obtain ⟨h1, h2, h3⟩ :=
    createWorkout_validation_guard none 0 7 "   " "" draftOne emptyStore
      (Or.inl (by decide))
  exact ⟨h1, h2⟩

/-- C3 (confirmed): the previous-performance lookup considers exactly the
junction rows of the given exercise whose inner-joined parent workout belongs
to the given user and was created strictly before the reference timestamp;
it returns at most one row, the one with the most recent parent workout, whose
nested sets are sorted by created_at ascending and projected to weight/reps
pairs; no matching row, or a failing query, yields the empty sequence. -/
theorem previous_sets_spec (st : Store) (userId exerciseId refTime : Nat) :
    (∀ e, previousFromResponse (Except.error e) = []) ∧
    (prevCandidates st userId exerciseId refTime = [] →
      previousSets st userId exerciseId refTime = []) ∧
    (prevQuery st userId exerciseId refTime).length ≤ 1 ∧
    (∀ r ∈ prevQuery st userId exerciseId refTime,
        r ∈ prevCandidates st userId exerciseId refTime ∧
        previousSets st userId exerciseId refTime
          = (sortSetsAsc r.sets).map projectSet ∧
        (∀ r2 ∈ prevCandidates st userId exerciseId refTime,
          r2.workout.created_at ≤ r.workout.created_at)) ∧
    (∀ r ∈ prevCandidates st userId exerciseId refTime,
        r.we.exercise_id = exerciseId ∧
        parentWorkout st r.we = some r.workout ∧
        r.workout.user_id = userId ∧
        r.workout.created_at < refTime ∧
        r.sets = setsOfWE st r.we) ∧
    (∀ l : List SetRow,
        List.Pairwise (fun a b => a.created_at ≤ b.created_at) (sortSetsAsc l) ∧
        (sortSetsAsc l).Perm l) := by
  haveI ht : IsTotal PrevRow
      (fun a b => b.workout.created_at ≤ a.workout.created_at) :=
    ⟨fun a b => Nat.le_total b.workout.created_at a.workout.created_at⟩
  haveI htr : IsTrans PrevRow
      (fun a b => b.workout.created_at ≤ a.workout.created_at) :=
    ⟨fun a b c hab hbc => Nat.le_trans hbc hab⟩
  refine ⟨fun e => rfl, ?_, ?_, ?_, ?_, ?_⟩
  · intro h
    simp [previousSets, prevQuery, h, previousFromResponse]
  · simp [prevQuery]
  · intro r hr
    have hsorted := List.sorted_insertionSort
      (fun a b : PrevRow => b.workout.created_at ≤ a.workout.created_at)
      (prevCandidates st userId exerciseId refTime)
    have hperm := List.perm_insertionSort
      (fun a b : PrevRow => b.workout.created_at ≤ a.workout.created_at)
      (prevCandidates st userId exerciseId refTime)
    rcases hs : List.insertionSort
        (fun a b : PrevRow => b.workout.created_at ≤ a.workout.created_at)
        (prevCandidates st userId exerciseId refTime) with _ | ⟨a, tail⟩
    · rw [prevQuery, hs] at hr
      simp at hr
    · rw [prevQuery, hs] at hr
      simp at hr
      subst hr
      rw [hs] at hsorted hperm
      refine ⟨hperm.subset (List.mem_cons_self r tail), ?_, ?_⟩
      · show previousFromResponse (Except.ok (prevQuery st userId exerciseId refTime)) = _
        rw [prevQuery, hs]
        rfl
      · intro r2 hr2
        have hr2s : r2 ∈ r :: tail := hperm.mem_iff.mpr hr2
        rcases List.mem_cons.mp hr2s with h | h
        · subst h
          exact Nat.le.refl
        · exact (List.pairwise_cons.mp hsorted).1 r2 h
  · intro r hr
    simp only [prevCandidates, List.mem_filterMap] at hr
    obtain ⟨we, hwe, hf⟩ := hr
    by_cases hex : we.exercise_id = exerciseId
    · rw [if_pos hex] at hf
      rcases hq : parentWorkout st we with _ | w
      · rw [hq] at hf
        simp at hf
      · rw [hq] at hf
        simp only at hf
        by_cases hcond : w.user_id = userId ∧ w.created_at < refTime
        · rw [if_pos hcond] at hf
          obtain ⟨heq⟩ := hf
          exact ⟨hex, by rw [hq], hcond.1, hcond.2, rfl⟩
        · rw [if_neg hcond] at hf
          exact absurd hf (by simp)
    · rw [if_neg hex] at hf
      exact absurd hf (by simp)
  · intro l
    haveI h2 : IsTotal SetRow (fun a b => a.created_at ≤ b.created_at) :=
      ⟨fun a b => Nat.le_total a.created_at b.created_at⟩
    haveI h3 : IsTrans SetRow (fun a b => a.created_at ≤ b.created_at) :=
      ⟨fun a b c hab hbc => Nat.le_trans hab hbc⟩
    exact ⟨List.sorted_insertionSort _ l, List.perm_insertionSort _ l⟩

/-- C3 (witness): in the concrete store, looking up exercise 100 for user 7
before time 30 selects workout 2 (the most recent of the two earlier ones,
skipping the other user) and returns its sets sorted by created_at ascending,
projected to weight/reps. -/
theorem previous_sets_spec_witness :
    previousSets matcherStore 7 100 30 =
      [{ weight := none, reps := some 3 }, { weight := none, reps := some 5 }] := by
  have h := ((previous_sets_spec matcherStore 7 100 30).2.2.2.1 matcherHit
    (by decide)).2.1
  rw [h]
  decide

end WorkoutTracker
